import Mathlib

set_option linter.unusedVariables false

/-!
Verification of the episode-generation pipeline in `src/podcast_ai.py`.

The Python source is shallowly embedded: every pure computation (string
templating, list slicing, the bounded episode list) is translated directly;
every external effect (feed fetching, the elevenlabs synthesis call, the GCS
upload, clock reads) is supplied as an explicit parameter holding that call's
outcome for the run under consideration.  Randomness (`random.choice`,
`random.sample`) is modelled by explicit streams of natural numbers that pick
indices.  Python exceptions are modelled with `Except`; a `try/except` block
becomes a `match` on the embedded body's `Except` value.
-/

namespace PodcastAI

/-- A news item as built by `fetch_tech_news` (lines 79-84): the dict with keys
`title`, `link`, `summary`, `source`. -/
structure TopicItem where
  title : String
  link : String
  summary : String
  source : String
deriving Repr, DecidableEq

/-- One AI guest personality from the `AI_GUESTS` table (lines 57-63). -/
structure Guest where
  name : String
  style : String
  intro : String
deriving Repr, DecidableEq

/-- The `AI_GUESTS` catalog, lines 57-63 of the source. -/
def AI_GUESTS : List Guest :=
  [ { name := "Dr. Nova", style := "formal",
      intro := "As an AI researcher, I can tell you..." },
    { name := "Tech Rebel", style := "casual",
      intro := "Look, the way I see it..." },
    { name := "ByteBot 3000", style := "humor",
      intro := "Oh great, another AI debate! Let\'s dive in..." },
    { name := "LogicCore", style := "logical",
      intro := "Pure logic dictates the outcome." },
    { name := "Glitch", style := "chaotic",
      intro := "Binary chaos detected, let\'s analyze..." } ]

/-- The `host_intros` list from lines 102-108. -/
def host_intros : List String :=
  [ "Let\'s get your thoughts on this.",
    "What\'s your take on this story?",
    "I\'d love to hear your perspective on this.",
    "Any insights to share about this news?",
    "How do you interpret this development?" ]

/-- The `host_responses` list from lines 109-115. -/
def host_responses : List String :=
  [ "That\'s fascinating.",
    "I hadn\'t thought of it that way.",
    "Interesting perspective!",
    "You make a good point there.",
    "That\'s quite insightful." ]

/-- The sector list passed to `random.choice` on line 130. -/
def sectors : List String :=
  ["healthcare", "education", "finance", "entertainment", "transportation"]

/-- `random.choice(xs)` picks one element of a non-empty list; the embedding
selects index `r % xs.length`, with `d` the (never used on the non-empty lists
of this file) default. -/
def pyChoice (r : Nat) (xs : List α) (d : α) : α :=
  xs.getD (r % xs.length) d

/-- `random.sample(xs, k)`: `k` draws without replacement. Each step consumes
one number from the stream `rs` to pick an index into the remaining list, and
the picked element is removed before the next draw. -/
def sample (rs : List Nat) (xs : List α) (k : Nat) : List α :=
  match k, xs with
  | 0, _ => []
  | _ + 1, [] => []
  | k + 1, x :: xs' =>
    let i := rs.headD 0 % (xs'.length + 1)
    (x :: xs').getD i x :: sample rs.tail ((x :: xs').eraseIdx i) k

/-- The fallback topic returned by `fetch_tech_news` when the aggregate is
empty (line 96). -/
def fallbackTopic : TopicItem :=
  { title := "No fresh news found.", link := "",
    summary := "Backup topic: Recent advancements in AI technology",
    source := "fallback" }

/-- Lines 92-96 of `fetch_tech_news`.  The provider loop (lines 74-90) is
external I/O: it aggregates up to three entries from each reachable feed and
swallows every per-provider exception, so the function as a whole receives
some aggregate list `news_list` and never raises; that aggregate is the
parameter here.  Line 93: if more than 5 items were gathered, down-sample to
exactly 5; line 96: return the list if non-empty, else the single fallback. -/
def fetch_tech_news (rs : List Nat) (news_list : List TopicItem) : List TopicItem :=
  let selected := if 5 < news_list.length then sample rs news_list 5 else news_list
  if selected.isEmpty then [fallbackTopic] else selected

/-- The index draws made by one call of `generate_conversation`
(lines 101, 117, 118, 130): guest, host intro, host response, sector. -/
structure ConvRand where
  guest : Nat
  hIntro : Nat
  hResp : Nat
  sector : Nat
deriving Repr, DecidableEq

/-- The conversation template of lines 121-131, rendered for one topic. -/
def renderConversation (r : ConvRand) (topic : TopicItem) : String :=
  let guest := pyChoice r.guest AI_GUESTS { name := "", style := "", intro := "" }
  let host_intro := pyChoice r.hIntro host_intros ""
  let host_response := pyChoice r.hResp host_responses ""
  let sector := pyChoice r.sector sectors ""
  "\nHost: Let\'s talk about " ++ topic.title ++ ". " ++ host_intro ++ "\n\n" ++
  guest.name ++ " (" ++ guest.style ++ "): " ++ guest.intro ++ " " ++
  "I was reading about " ++ topic.title ++ ". " ++
  "The article mentions " ++ topic.summary.take 100 ++ "... " ++
  "This is particularly interesting because it highlights the rapid pace of technological change.\n\n" ++
  "Host: " ++ host_response ++ " What implications do you think this has for the future?\n\n" ++
  guest.name ++ ": Well, if we extrapolate from current trends, " ++
  "we might see significant changes in how we interact with technology. " ++
  "This development could potentially impact various sectors including " ++
  sector ++ ".\n"

/-- The fallback sentence built in the `except` handler of
`generate_conversation` (line 135). -/
def fallbackConversation (topic : TopicItem) : String :=
  "\nPodcast Topic: " ++ topic.title ++
  "\nGuest: Let me share my thoughts on this topic. " ++
  topic.summary.take 100 ++ "..."

/-- `generate_conversation` (lines 99-135).  The whole template rendering sits
in a `try` block whose handler substitutes `fallbackConversation`; `raised`
says whether an exception escaped the rendering of this topic (none of the
operations in the body can fail on the data of this file, but the top-level
contract is about arbitrary unexpected exceptions, so the possibility is kept
explicit). -/
def generate_conversation (raised : Bool) (r : ConvRand) (topic : TopicItem) : String :=
  if raised then fallbackConversation topic else renderConversation r topic

/-- `text_to_speech` (lines 138-158).  `apiKey` is `ELEVENLABS_API_KEY`
(`none` when unset, matching the falsy check on line 139); `synthCall` is the
outcome of the external elevenlabs `generate`/`save` pair; `filename` is the
destination the orchestrator passes on line 241 (so the `filename is None`
default branch of lines 143-145 is not taken).  The second component counts
network synthesis calls performed, to record that the no-credential branch
performs none. -/
def text_to_speech (apiKey : Option String) (synthCall : Except String Unit)
    (text : String) (filename : String) : String × Nat :=
  match apiKey with
  | none => ("audio_generation_skipped.mp3", 0)
  | some _ =>
    match synthCall with
    | Except.ok _ => (filename, 1)
    | Except.error _ => ("audio_generation_failed.mp3", 1)

/-- `upload_to_gcs` (lines 161-181).  `bucket_name` is `none` when unset
(falsy check, line 162); `uploadCall` is the outcome of the external GCS
client interaction of lines 167-174, yielding the public URL on success.
Both failure shapes return `None` rather than raising. -/
def upload_to_gcs (bucket_name : Option String) (uploadCall : Except String String)
    (source_file_name : String) (destination_blob_name : String) : Option String :=
  match bucket_name with
  | none => none
  | some _ =>
    match uploadCall with
    | Except.ok url => some url
    | Except.error _ => none

/-- The `episode_data` dict appended to `podcast_episodes` (lines 252-258). -/
structure Episode where
  podcast_text : String
  audio_file : String
  audio_url : String
  timestamp : String
  created_at : String
deriving Repr, DecidableEq

/-- The response dict of the `PodcastResponse` model (lines 48-51):
`podcast_text`, `audio_file`, `created_at`. -/
structure PodcastResponse where
  podcast_text : String
  audio_file : String
  created_at : String
deriving Repr, DecidableEq

/-- Lines 260-265: append the new episode to the global `podcast_episodes`
list, then keep only the last 10 (`podcast_episodes[-10:]`, i.e. drop the
oldest from the front) when the length exceeds 10. -/
def appendEpisode (ledger : List α) (e : α) : List α :=
  let grown := ledger ++ [e]
  if 10 < grown.length then grown.drop (grown.length - 10) else grown

/-- One `<item>` of the generated RSS document, as populated by lines 197-203.
`pubDate` records the ISO-8601 `created_at` string handed to
`datetime.fromisoformat` on line 203 (the external date parse is modelled as
carrying its input). -/
structure FeedEntry where
  entryId : String
  title : String
  link : String
  description : String
  enclosure_url : String
  enclosure_length : Nat
  enclosure_type : String
  pubDate : String
deriving Repr, DecidableEq

/-- The entry built for one episode by the loop body, lines 197-203. -/
def feedEntry (episode : Episode) : FeedEntry :=
  { entryId := episode.audio_url
  , title := "Episode " ++ episode.timestamp
  , link := episode.audio_url
  , description := episode.podcast_text.take 500 ++ "..."
  , enclosure_url := episode.audio_url
  , enclosure_length := 0
  , enclosure_type := "audio/mpeg"
  , pubDate := episode.created_at }

/-- `generate_rss_feed` (lines 184-217), restricted to the data it derives:
the ordered entry sequence of the regenerated document.  `fg.add_entry` is
called once per episode of the input, in input order (lines 196-203); the
feed-level metadata, the `rss_file` write and the optional GCS upload of
lines 186-215 are external effects on that same data. -/
def generate_rss_feed (episodes : List Episode) : List FeedEntry :=
  episodes.foldl (fun acc e => acc ++ [feedEntry e]) []

/-- The opening two lines of the episode script (lines 232-233). -/
def openingBlock (title : String) (ts : String) : String :=
  "Welcome to " ++ title ++ ". Episode " ++ ts ++ ".\n" ++
  "Today we\'ll be discussing the latest in AI and tech news.\n\n"

/-- The fixed closing sentence of the script (line 238). -/
def closingBlock (title : String) : String :=
  "\nThanks for listening to this episode of " ++ title ++
  ". Join us next time for more AI discussions!"

/-- Lines 232-238 of `generate_podcast`: start from the opening block and add
`generate_conversation(topic) + "\n\n"` for each topic in order, then the
closing sentence.  `conv` is the per-topic conversation text. -/
def composeScript (conv : TopicItem → String) (title : String) (ts : String)
    (topics : List TopicItem) : String :=
  topics.foldl (fun acc t => acc ++ conv t ++ "\n\n") (openingBlock title ts) ++
    closingBlock title

/-- The configuration read from the environment at lines 32-43 that the
pipeline consults: `PODCAST_TITLE`, `PODCAST_DIR`, `ELEVENLABS_API_KEY`
(`none` when unset) and `GCS_BUCKET_NAME` (`none` when unset or empty, the
falsy checks of lines 139, 162 and 245). -/
structure Config where
  podcast_title : String
  podcast_dir : String
  elevenlabs_api_key : Option String
  gcs_bucket : Option String

/-- The ambient world of one `generate_podcast` invocation: the outcomes of
all external interactions (feed aggregation, randomness, the synthesis call,
the GCS uploads, the clock reads) plus an optional unexpected exception.
`unexpectedAt = some (i, msg)` injects an exception, not anticipated by any
component contract (the UnexpectedFailure class of the spec taxonomy, e.g. a
resource error), that escapes step `i` of the pipeline body; all such escape
points precede the ledger append, because every later source operation is
either pure list manipulation or sits inside the catch-all of
`generate_rss_feed` (lines 185-217). -/
structure RunEnv where
  unexpectedAt : Option (Nat × String)
  aggregate : List TopicItem
  sampleRand : List Nat
  convFail : TopicItem → Bool
  convRand : TopicItem → ConvRand
  synthCall : Except String Unit
  audioUpload : Except String String
  timestamp : String
  isoNowEmpty : String
  isoNowEpisode : String
  isoNowReturn : String
  isoNowError : String

/-- Unexpected-exception injection point `i` of the pipeline body. -/
def chk (env : RunEnv) (i : Nat) : Except String Unit :=
  match env.unexpectedAt with
  | some (j, msg) => if j = i then Except.error msg else Except.ok ()
  | none => Except.ok ()

/-- The `episode_content` string built by lines 232-238 for one run. -/
def runScript (cfg : Config) (env : RunEnv) : String :=
  composeScript (fun t => generate_conversation (env.convFail t) (env.convRand t) t)
    cfg.podcast_title env.timestamp (fetch_tech_news env.sampleRand env.aggregate)

/-- The `audio_filename` produced by line 241 for one run. -/
def runAudioFilename (cfg : Config) (env : RunEnv) : String :=
  (text_to_speech cfg.elevenlabs_api_key env.synthCall (runScript cfg env)
    (cfg.podcast_dir ++ "/podcast_episode_" ++ env.timestamp ++ ".mp3")).1

/-- The `audio_url` produced by lines 244-247 for one run: `None` unless a
bucket is configured, in which case the outcome of the GCS upload. -/
def runAudioUrl (cfg : Config) (env : RunEnv) : Option String :=
  if cfg.gcs_bucket.isSome then
    upload_to_gcs cfg.gcs_bucket env.audioUpload (runAudioFilename cfg env)
      ("episodes/podcast_episode_" ++ env.timestamp ++ ".mp3")
  else none

/-- The `final_url` of line 249: the public URL when the upload produced one,
otherwise the local audio filename. -/
def runFinalUrl (cfg : Config) (env : RunEnv) : String :=
  (runAudioUrl cfg env).getD (runAudioFilename cfg env)

/-- The `try` body of `generate_podcast` (lines 222-274), returning the
response dict together with the resulting `podcast_episodes` ledger, or the
unexpected exception that escaped. -/
def runBody (cfg : Config) (env : RunEnv) (ledger : List Episode) :
    Except String (PodcastResponse × List Episode) :=
  match chk env 0 with
  | Except.error m => Except.error m
  | Except.ok _ =>
    let topics := fetch_tech_news env.sampleRand env.aggregate
    if topics.isEmpty then
      Except.ok ({ podcast_text := "No topics available for this episode.",
                   audio_file := "no_episode.mp3",
                   created_at := env.isoNowEmpty }, ledger)
    else
      match chk env 1 with
      | Except.error m => Except.error m
      | Except.ok _ =>
        let episode_content := runScript cfg env
        match chk env 2 with
        | Except.error m => Except.error m
        | Except.ok _ =>
          let audio_filename := runAudioFilename cfg env
          match chk env 3 with
          | Except.error m => Except.error m
          | Except.ok _ =>
            let audio_url : Option String := runAudioUrl cfg env
            match chk env 4 with
            | Except.error m => Except.error m
            | Except.ok _ =>
              let final_url := runFinalUrl cfg env
              let episode_data : Episode :=
                { podcast_text := episode_content
                , audio_file := audio_filename
                , audio_url := final_url
                , timestamp := env.timestamp
                , created_at := env.isoNowEpisode }
              let ledger1 := appendEpisode ledger episode_data
              let rssEntries := generate_rss_feed ledger1
              Except.ok ({ podcast_text := episode_content,
                           audio_file := final_url,
                           created_at := env.isoNowReturn }, ledger1)

/-- The fixed degraded record built by the `except` handler of
`generate_podcast` (lines 276-280). -/
def degradedRecord (createdAt : String) : PodcastResponse :=
  { podcast_text := "Error generating podcast.",
    audio_file := "error.mp3",
    created_at := createdAt }

/-- `generate_podcast` (lines 220-280): run the body; any exception escaping
it is converted into the fixed degraded record, with the ledger as it was at
the moment the exception was raised. -/
def generate_podcast (cfg : Config) (env : RunEnv) (ledger : List Episode) :
    PodcastResponse × List Episode :=
  match runBody cfg env ledger with
  | Except.ok result => result
  | Except.error _ => (degradedRecord env.isoNowError, ledger)

/-- A raised `fastapi.HTTPException`, carrying status code and detail; its
Python string form is `"{status_code}: {detail}"`. -/
structure HTTPExc where
  status_code : Nat
  detail : String
deriving Repr, DecidableEq

/-- The string form of an `HTTPException`, as interpolated by
`f"Internal server error: {str(e)}"` on line 313. -/
def httpExcStr (e : HTTPExc) : String :=
  toString e.status_code ++ ": " ++ e.detail

/-- The `/latest` endpoint `get_latest_episode` (lines 296-313).  The body of
the `try` block raises `HTTPException(404)` on an empty ledger, otherwise
returns the latest record; the `except Exception` clause catches every
exception, including that 404, and re-raises it as a 500 with the generic
detail prefix. -/
def get_latest_episode (ledger : List Episode) : Except HTTPExc PodcastResponse :=
  let body : Except HTTPExc PodcastResponse :=
    if ledger.isEmpty then
      Except.error { status_code := 404, detail := "No episodes found" }
    else
      match ledger.getLast? with
      | some latest =>
        Except.ok { podcast_text := latest.podcast_text,
                    audio_file := latest.audio_url,
                    created_at := latest.created_at }
      | none =>
        Except.error { status_code := 404, detail := "No episodes found" }
  match body with
  | Except.ok r => Except.ok r
  | Except.error e =>
    Except.error { status_code := 500,
                   detail := "Internal server error: " ++ httpExcStr e }

/-! Concrete inputs used to exercise the theorems below. -/

/-- A short concrete episode record. -/
def epShort : Episode :=
  { podcast_text := "Hello world.", audio_file := "/tmp/episodes/a.mp3",
    audio_url := "/tmp/episodes/a.mp3", timestamp := "20260101_080000",
    created_at := "2026-01-01T08:00:00" }

/-- A family of distinct concrete episode records. -/
def epN (n : Nat) : Episode :=
  { podcast_text := "Episode text " ++ toString n,
    audio_file := "/tmp/episodes/e" ++ toString n ++ ".mp3",
    audio_url := "/tmp/episodes/e" ++ toString n ++ ".mp3",
    timestamp := toString n, created_at := "2026-01-01T08:00:00" }

/-- A family of distinct concrete news items. -/
def topicN (n : Nat) : TopicItem :=
  { title := "Story " ++ toString n,
    link := "https://example.com/" ++ toString n,
    summary := "Summary of story number " ++ toString n,
    source := "https://news.ycombinator.com/rss" }

/-- A six-item aggregate (more than the five-item cap). -/
def agg6 : List TopicItem := (List.range 6).map topicN

/-- A three-item aggregate (within the five-item cap). -/
def agg3 : List TopicItem := (List.range 3).map topicN

/-- A concrete topic; `topicSame` differs from it only in `link` and
`source`. -/
def topicA : TopicItem :=
  { title := "AI beats benchmark", link := "https://example.com/a",
    summary := "A new model surpasses prior results.", source := "feed-a" }

/-- Same `title` and `summary` as `topicA`, different `link` and `source`. -/
def topicSame : TopicItem :=
  { title := "AI beats benchmark", link := "https://example.com/b",
    summary := "A new model surpasses prior results.", source := "feed-b" }

/-- Concrete index draws. -/
def convRandA : ConvRand := { guest := 0, hIntro := 1, hResp := 2, sector := 3 }

/-- Different concrete index draws. -/
def convRandB : ConvRand := { guest := 4, hIntro := 3, hResp := 2, sector := 1 }

/-- A configuration with no synthesis credential and no storage target. -/
def cfgBare : Config :=
  { podcast_title := "The Neural Narrative", podcast_dir := "/tmp/episodes",
    elevenlabs_api_key := none, gcs_bucket := none }

/-- A configuration with a synthesis credential and no storage target. -/
def cfgKeyed : Config :=
  { podcast_title := "The Neural Narrative", podcast_dir := "/tmp/episodes",
    elevenlabs_api_key := some "EL_KEY", gcs_bucket := none }

/-- A configuration with a storage target and no synthesis credential. -/
def cfgBucketed : Config :=
  { podcast_title := "The Neural Narrative", podcast_dir := "/tmp/episodes",
    elevenlabs_api_key := none, gcs_bucket := some "my-bucket" }

/-- A run world in which an unexpected exception escapes the fetch step. -/
def envBoom : RunEnv :=
  { unexpectedAt := some (0, "boom"), aggregate := [topicA], sampleRand := [],
    convFail := fun _ => false, convRand := fun _ => convRandA,
    synthCall := Except.ok (), audioUpload := Except.error "gcs down",
    timestamp := "20260101_080000", isoNowEmpty := "2026-01-01T08:00:00",
    isoNowEpisode := "2026-01-01T08:00:01", isoNowReturn := "2026-01-01T08:00:02",
    isoNowError := "2026-01-01T08:00:03" }

/-- A run world with no unexpected exception and a failing synthesis call. -/
def envSynthFail : RunEnv :=
  { envBoom with unexpectedAt := none, synthCall := Except.error "elevenlabs down" }

/-- A run world with no unexpected exception and a failing GCS upload. -/
def envUploadFail : RunEnv :=
  { envBoom with
    unexpectedAt := none
    synthCall := Except.ok ()
    audioUpload := Except.error "gcs down" }

/-! Helper lemmas. -/

theorem getD_cons_eraseIdx_perm :
    ∀ (xs : List α) (i : Nat) (d : α), i < xs.length →
      List.Perm (xs.getD i d :: xs.eraseIdx i) xs
  | x :: xs', 0, d, _ => by simp
  | x :: xs', i + 1, d, h => by
    have ih := getD_cons_eraseIdx_perm xs' i d (Nat.lt_of_succ_lt_succ (by simpa using h))
    simp only [List.getD_cons_succ, List.eraseIdx_cons_succ]
    exact (List.Perm.swap x _ _).trans (List.Perm.cons x ih)

theorem sample_length :
    ∀ (k : Nat) (rs : List Nat) (xs : List α), k ≤ xs.length →
      (sample rs xs k).length = k
  | 0, rs, xs, _ => by simp [sample]
  | k + 1, rs, [], h => by simp at h
  | k + 1, rs, x :: xs', h => by
    have hi : rs.headD 0 % (xs'.length + 1) < (x :: xs').length := by
      simpa using Nat.mod_lt _ (Nat.succ_pos xs'.length)
    have he : ((x :: xs').eraseIdx (rs.headD 0 % (xs'.length + 1))).length = xs'.length := by
      rw [List.length_eraseIdx_of_lt hi]; simp
    have hk : k ≤ ((x :: xs').eraseIdx (rs.headD 0 % (xs'.length + 1))).length := by
      rw [he]; exact (by simpa using h)
    simp only [sample, List.length_cons]
    rw [sample_length k rs.tail _ hk]

theorem sample_subperm :
    ∀ (k : Nat) (rs : List Nat) (xs : List α), List.Subperm (sample rs xs k) xs
  | 0, rs, xs => by simp [sample]
  | k + 1, rs, [] => by simp [sample]
  | k + 1, rs, x :: xs' => by
    have hi : rs.headD 0 % (xs'.length + 1) < (x :: xs').length := by
      simpa using Nat.mod_lt _ (Nat.succ_pos xs'.length)
    have hperm := getD_cons_eraseIdx_perm (x :: xs') (rs.headD 0 % (xs'.length + 1)) x hi
    have ih := sample_subperm k rs.tail ((x :: xs').eraseIdx (rs.headD 0 % (xs'.length + 1)))
    simp only [sample]
    exact ((List.subperm_cons _).mpr ih).trans hperm.subperm

theorem foldl_appendEpisode (es : List α) :
    es.foldl appendEpisode [] = es.drop (es.length - 10) := by
  induction es using List.reverseRecOn with
  | nil => rfl
  | append_singleton l a ih =>
    rw [List.foldl_append, List.foldl_cons, List.foldl_nil, ih]
    simp only [appendEpisode, List.length_append, List.length_cons, List.length_nil,
      List.length_drop]
    by_cases hlen : l.length < 10
    · rw [if_neg (by omega), Nat.sub_eq_zero_of_le (by omega), List.drop_zero,
        Nat.sub_eq_zero_of_le (by omega), List.drop_zero]
    · rw [if_pos (by omega)]
      have hdl : (l.drop (l.length - 10)).length = l.length - (l.length - 10) :=
        List.length_drop _ _
      rw [List.drop_append_of_le_length (by omega), List.drop_drop,
        List.drop_append_of_le_length (by omega)]
      congr 2
      omega

theorem join_cons (s : String) (l : List String) :
    String.join (s :: l) = s ++ String.join l := by
  apply String.ext
  rw [String.data_append, String.join_eq, String.join_eq]
  simp

theorem foldl_blocks (f : α → String) (l : List α) :
    ∀ init : String,
      l.foldl (fun acc t => acc ++ f t ++ "\n\n") init =
        init ++ String.join (l.map (fun t => f t ++ "\n\n")) := by
  induction l with
  | nil => intro init; simp [String.join]
  | cons x xs ih =>
    intro init
    rw [List.foldl_cons, ih, List.map_cons, join_cons]
    simp [String.append_assoc]

theorem composeScript_eq (conv : TopicItem → String) (title ts : String)
    (topics : List TopicItem) :
    composeScript conv title ts topics =
      openingBlock title ts ++
        String.join (topics.map (fun t => conv t ++ "\n\n")) ++
        closingBlock title := by
  rw [composeScript, foldl_blocks]

theorem foldl_append_singleton (f : α → β) (l : List α) :
    ∀ init : List β, l.foldl (fun acc e => acc ++ [f e]) init = init ++ l.map f := by
  induction l with
  | nil => intro init; simp
  | cons x xs ih => intro init; simp [ih]

theorem generate_rss_feed_eq_map (episodes : List Episode) :
    generate_rss_feed episodes = episodes.map feedEntry := by
  simpa using foldl_append_singleton feedEntry episodes []

theorem append_ne_empty_left (s t : String) (h : s ≠ "") : s ++ t ≠ "" := by
  intro he
  apply h
  apply String.ext
  have hd := congrArg String.data he
  rw [String.data_append] at hd
  exact (List.append_eq_nil.mp hd).1

theorem composeScript_ne_empty (conv : TopicItem → String) (title ts : String)
    (topics : List TopicItem) : composeScript conv title ts topics ≠ "" := by
  rw [composeScript_eq]
  apply append_ne_empty_left
  apply append_ne_empty_left
  rw [openingBlock]
  apply append_ne_empty_left
  apply append_ne_empty_left
  apply append_ne_empty_left
  apply append_ne_empty_left
  apply append_ne_empty_left
  decide

theorem fetch_tech_news_not_isEmpty (rs : List Nat) (agg : List TopicItem) :
    (fetch_tech_news rs agg).isEmpty = false := by
  simp only [fetch_tech_news]
  cases h : (if 5 < agg.length then sample rs agg 5 else agg).isEmpty <;> simp [h]

theorem generate_podcast_ok (cfg : Config) (env : RunEnv) (ledger : List Episode)
    (henv : env.unexpectedAt = none) :
    generate_podcast cfg env ledger =
      ({ podcast_text := runScript cfg env, audio_file := runFinalUrl cfg env,
         created_at := env.isoNowReturn },
       appendEpisode ledger
         { podcast_text := runScript cfg env, audio_file := runAudioFilename cfg env,
           audio_url := runFinalUrl cfg env, timestamp := env.timestamp,
           created_at := env.isoNowEpisode }) := by
  have hchk : ∀ i, chk env i = Except.ok () := fun i => by simp [chk, henv]
  simp only [generate_podcast, runBody, hchk, fetch_tech_news_not_isEmpty,
    Bool.false_eq_true, if_false]

/-! Claim theorems. -/

/-- Claim C1: `generate_podcast` never propagates an exception — every
invocation yields a record with all three fields present — and whenever an
unexpected exception escapes the inner steps, the returned record is exactly
the fixed degraded record with text "Error generating podcast." and artifact
reference "error.mp3". -/
theorem generate_podcast_total_and_degraded (cfg : Config) (env : RunEnv)
    (ledger : List Episode) :
    (∃ r rest, generate_podcast cfg env ledger = (r, rest)) ∧
    (∀ msg, runBody cfg env ledger = Except.error msg →
      (generate_podcast cfg env ledger).1 = degradedRecord env.isoNowError) := by
  refine ⟨⟨(generate_podcast cfg env ledger).1,
    (generate_podcast cfg env ledger).2, rfl⟩, ?_⟩
  intro msg h
  simp [generate_podcast, h]

/-- Witness for C1: a run in which the fetch step raises unexpectedly yields
the fixed degraded record. -/
theorem generate_podcast_total_and_degraded_witness :
    (generate_podcast cfgBare envBoom []).1 = degradedRecord "2026-01-01T08:00:03" :=
  (generate_podcast_total_and_degraded cfgBare envBoom []).2 "boom" rfl

/-- Claim C2: any number N of sequential appends leaves exactly the last
min(N, 10) records in their original relative order; after 11 appends the
first retained record is the one from run number 2. -/
theorem ledger_retention (es : List Episode) :
    es.foldl appendEpisode [] = es.drop (es.length - 10) ∧
    (es.foldl appendEpisode []).length = min es.length 10 ∧
    (es.length = 11 → (es.foldl appendEpisode []).head? = es[1]?) := by
  refine ⟨foldl_appendEpisode es, ?_, ?_⟩
  · rw [foldl_appendEpisode, List.length_drop]
    omega
  · intro h11
    rw [foldl_appendEpisode, h11]
    have h1 : 1 < es.length := by omega
    rw [show (11 - 10 : Nat) = 1 from rfl, List.drop_eq_getElem_cons h1]
    simp [List.getElem?_eq_getElem h1]

/-- Witness for C2: after 11 concrete appends the ledger head is the second
appended record. -/
theorem ledger_retention_witness :
    (((List.range 11).map epN).foldl appendEpisode []).head? =
      ((List.range 11).map epN)[1]? :=
  (ledger_retention ((List.range 11).map epN)).2.2 (by simp)

/-- Claim C3: on an aggregate of more than 5 items, `fetch_tech_news` returns
exactly 5 items drawn without replacement from the aggregate; on 1 to 5 items
it returns the aggregate unchanged; on an empty aggregate it returns exactly
the single fallback item titled "No fresh news found."; it never returns an
empty sequence. -/
theorem fetch_tech_news_selection (rs : List Nat) (news_list : List TopicItem) :
    (5 < news_list.length →
      (fetch_tech_news rs news_list).length = 5 ∧
      List.Subperm (fetch_tech_news rs news_list) news_list) ∧
    (1 ≤ news_list.length → news_list.length ≤ 5 →
      fetch_tech_news rs news_list = news_list) ∧
    (news_list = [] → fetch_tech_news rs news_list = [fallbackTopic]) ∧
    fetch_tech_news rs news_list ≠ [] := by
  refine ⟨?_, ?_, ?_, ?_⟩
  · intro h5
    have hlen := sample_length 5 rs news_list (Nat.le_of_lt h5)
    have hne : (sample rs news_list 5).isEmpty = false := by
      rw [List.isEmpty_eq_false]
      intro hnil
      rw [hnil] at hlen
      simp at hlen
    simp only [fetch_tech_news, if_pos h5, hne, Bool.false_eq_true, if_false]
    exact ⟨hlen, sample_subperm 5 rs news_list⟩
  · intro h1 h5
    have hne : news_list.isEmpty = false := by
      rw [List.isEmpty_eq_false]
      intro hnil
      rw [hnil] at h1
      simp at h1
    have hc : ¬ 5 < news_list.length := by omega
    simp only [fetch_tech_news, if_neg hc, hne, Bool.false_eq_true, if_false]
  · intro hnil
    subst hnil
    rfl
  · intro hnil
    have hf := fetch_tech_news_not_isEmpty rs news_list
    rw [hnil] at hf
    simp at hf

/-- Witness for C3: concrete aggregates of size 6, 3 and 0. -/
theorem fetch_tech_news_selection_witness :
    ((fetch_tech_news [3, 1, 0] agg6).length = 5 ∧
      List.Subperm (fetch_tech_news [3, 1, 0] agg6) agg6) ∧
    fetch_tech_news [] agg3 = agg3 ∧
    fetch_tech_news [] ([] : List TopicItem) = [fallbackTopic] :=
  ⟨(fetch_tech_news_selection [3, 1, 0] agg6).1 (by decide),
   (fetch_tech_news_selection [] agg3).2.1 (by decide) (by decide),
   (fetch_tech_news_selection [] []).2.2.1 rfl⟩

/-- Claim C4 (code bug): querying the latest episode on an empty ledger does
NOT surface a distinct not-found result; the HTTPException(404) raised inside
the try block is caught by the blanket `except Exception` handler and
re-raised as a generic 500 internal error. -/
theorem get_latest_episode_empty_masked_500 :
    get_latest_episode [] =
      Except.error { status_code := 500,
                     detail := "Internal server error: 404: No episodes found" } := rfl

/-- Claim C5: the rendered exchange embeds the topic summary hard-truncated
to its first 100 characters; if rendering raises, the returned fallback
sentence is built only from the topic title and the truncated summary (it
depends on nothing else of the topic or the random draws); and composition
still produces one block per topic in order, whichever topics fall back. -/
theorem generate_conversation_policy (r : ConvRand) (t : TopicItem) :
    (∃ pre post, generate_conversation false r t =
        pre ++ t.summary.take 100 ++ post) ∧
    (generate_conversation true r t =
        "\nPodcast Topic: " ++ t.title ++
        "\nGuest: Let me share my thoughts on this topic. " ++
        t.summary.take 100 ++ "...") ∧
    (∀ r' t', t.title = t'.title → t.summary.take 100 = t'.summary.take 100 →
        generate_conversation true r t = generate_conversation true r' t') ∧
    (∀ (fail : TopicItem → Bool) (rnd : TopicItem → ConvRand) (title ts : String)
        (topics : List TopicItem),
        composeScript (fun t2 => generate_conversation (fail t2) (rnd t2) t2)
            title ts topics =
          openingBlock title ts ++
            String.join (topics.map
              (fun t2 => generate_conversation (fail t2) (rnd t2) t2 ++ "\n\n")) ++
            closingBlock title) := by
  refine ⟨?_, ?_, ?_, ?_⟩
  · refine ⟨"\nHost: Let\'s talk about " ++ t.title ++ ". " ++
        pyChoice r.hIntro host_intros "" ++ "\n\n" ++
        (pyChoice r.guest AI_GUESTS { name := "", style := "", intro := "" }).name ++
        " (" ++
        (pyChoice r.guest AI_GUESTS { name := "", style := "", intro := "" }).style ++
        "): " ++
        (pyChoice r.guest AI_GUESTS { name := "", style := "", intro := "" }).intro ++
        " " ++ "I was reading about " ++ t.title ++ ". " ++ "The article mentions ",
      "... " ++
        "This is particularly interesting because it highlights the rapid pace of technological change.\n\n" ++
        "Host: " ++ pyChoice r.hResp host_responses "" ++
        " What implications do you think this has for the future?\n\n" ++
        (pyChoice r.guest AI_GUESTS { name := "", style := "", intro := "" }).name ++
        ": Well, if we extrapolate from current trends, " ++
        "we might see significant changes in how we interact with technology. " ++
        "This development could potentially impact various sectors including " ++
        pyChoice r.sector sectors "" ++ ".\n", ?_⟩
    simp only [generate_conversation, Bool.false_eq_true, if_false, renderConversation]
    simp [String.append_assoc]
  · rfl
  · intro r' t' h1 h2
    show fallbackConversation t = fallbackConversation t'
    simp only [fallbackConversation, h1, h2]
  · intro fail rnd title ts topics
    exact composeScript_eq _ title ts topics

/-- Witness for C5: two topics agreeing on title and truncated summary but
differing elsewhere, under different random draws, yield the same fallback. -/
theorem generate_conversation_policy_witness :
    generate_conversation true convRandA topicA =
      generate_conversation true convRandB topicSame :=
  (generate_conversation_policy convRandA topicA).2.2.1 convRandB topicSame rfl rfl

/-- Claim C6: with no synthesis credential, `text_to_speech` returns the
sentinel "audio_generation_skipped.mp3" making zero network calls; when the
synthesis call fails it returns the distinct sentinel
"audio_generation_failed.mp3" instead of raising; and such a run still yields
a record carrying that sentinel as artifact reference with non-empty text
(given that the upload step produced no public URL for the sentinel
pathname — the sentinel file is never written, so its upload cannot
succeed). -/
theorem text_to_speech_sentinels (key text fn : String) (synth : Except String Unit)
    (cfg : Config) (env : RunEnv) (ledger : List Episode) :
    (text_to_speech none synth text fn = ("audio_generation_skipped.mp3", 0)) ∧
    (∀ e, synth = Except.error e →
      text_to_speech (some key) synth text fn = ("audio_generation_failed.mp3", 1)) ∧
    (∀ k e, cfg.elevenlabs_api_key = some k → env.synthCall = Except.error e →
      env.unexpectedAt = none → runAudioUrl cfg env = none →
      (generate_podcast cfg env ledger).1.audio_file = "audio_generation_failed.mp3" ∧
      (generate_podcast cfg env ledger).1.podcast_text ≠ "") := by
  refine ⟨rfl, ?_, ?_⟩
  · intro e he
    subst he
    rfl
  · intro k e hkey hsynth henv hup
    rw [generate_podcast_ok cfg env ledger henv]
    constructor
    · show runFinalUrl cfg env = _
      rw [runFinalUrl, hup]
      simp only [Option.getD_none]
      rw [runAudioFilename, hkey, hsynth]
      rfl
    · show runScript cfg env ≠ ""
      rw [runScript]
      exact composeScript_ne_empty _ _ _ _

/-- Witness for C6: a keyed configuration whose synthesis call fails. -/
theorem text_to_speech_sentinels_witness :
    (text_to_speech none (Except.ok ()) "Script" "f.mp3" =
      ("audio_generation_skipped.mp3", 0)) ∧
    (text_to_speech (some "EL_KEY") (Except.error "elevenlabs down") "Script" "f.mp3" =
      ("audio_generation_failed.mp3", 1)) ∧
    (generate_podcast cfgKeyed envSynthFail []).1.audio_file =
      "audio_generation_failed.mp3" ∧
    (generate_podcast cfgKeyed envSynthFail []).1.podcast_text ≠ "" := by
  refine ⟨(text_to_speech_sentinels "EL_KEY" "Script" "f.mp3" (Except.ok ())
      cfgKeyed envSynthFail []).1,
    (text_to_speech_sentinels "EL_KEY" "Script" "f.mp3"
      (Except.error "elevenlabs down") cfgKeyed envSynthFail []).2.1
      "elevenlabs down" rfl,
    ?_, ?_⟩
  · exact ((text_to_speech_sentinels "EL_KEY" "Script" "f.mp3"
      (Except.error "elevenlabs down") cfgKeyed envSynthFail []).2.2
      "EL_KEY" "elevenlabs down" rfl rfl rfl rfl).1
  · exact ((text_to_speech_sentinels "EL_KEY" "Script" "f.mp3"
      (Except.error "elevenlabs down") cfgKeyed envSynthFail []).2.2
      "EL_KEY" "elevenlabs down" rfl rfl rfl rfl).2

/-- Claim C7: `upload_to_gcs` returns `None` both when no storage target is
configured and when the upload fails, never raising; and whenever the run's
publish step returned `None`, the record's artifact reference equals the
local audio filename. -/
theorem upload_to_gcs_nil_policy (u : Except String String) (src dst : String)
    (cfg : Config) (env : RunEnv) (ledger : List Episode) :
    (upload_to_gcs none u src dst = none) ∧
    (∀ b e, u = Except.error e → upload_to_gcs b u src dst = none) ∧
    (env.unexpectedAt = none → runAudioUrl cfg env = none →
      (generate_podcast cfg env ledger).1.audio_file = runAudioFilename cfg env) := by
  refine ⟨rfl, ?_, ?_⟩
  · intro b e he
    subst he
    cases b <;> rfl
  · intro henv hup
    rw [generate_podcast_ok cfg env ledger henv]
    show runFinalUrl cfg env = _
    rw [runFinalUrl, hup]
    rfl

/-- Witness for C7: a bucketed configuration whose upload fails still yields
a record referencing the local audio filename. -/
theorem upload_to_gcs_nil_policy_witness :
    (upload_to_gcs none (Except.ok "https://storage.example/x.mp3") "a" "b" = none) ∧
    (upload_to_gcs (some "my-bucket") (Except.error "gcs down") "a" "b" = none) ∧
    (generate_podcast cfgBucketed envUploadFail []).1.audio_file =
      runAudioFilename cfgBucketed envUploadFail :=
  ⟨(upload_to_gcs_nil_policy (Except.ok "https://storage.example/x.mp3") "a" "b"
      cfgBucketed envUploadFail []).1,
   (upload_to_gcs_nil_policy (Except.error "gcs down") "a" "b"
      cfgBucketed envUploadFail []).2.1 (some "my-bucket") "gcs down" rfl,
   (upload_to_gcs_nil_policy (Except.error "gcs down") "a" "b"
      cfgBucketed envUploadFail []).2.2 rfl rfl⟩

/-- Counterexample for C8 as stated: the description of a generated entry is
not the first 500 characters of the episode text — line 201 appends "..."
after the truncation. -/
theorem rss_description_not_plain_truncation :
    (generate_rss_feed [epShort]).map FeedEntry.description ≠
      [epShort.podcast_text.take 500] := by
  simp only [generate_rss_feed, List.foldl_cons, List.foldl_nil, List.nil_append,
    List.map_cons, List.map_nil, feedEntry, ne_eq, List.cons.injEq, and_true]
  intro h
  have hl := congrArg String.length h
  rw [String.length_append] at hl
  have h3 : ("..." : String).length = 3 := rfl
  omega

/-- Claim C8 (amended): for every sequence of ledger records the document has
exactly one entry per record in the same order, with title
"Episode {runTimestamp}", id and enclosure equal to the record's
public-or-local artifact reference, description equal to the first 500
characters of the episode text followed by "...", and publication date
parsed from the record's ISO-8601 createdAt. -/
theorem generate_rss_feed_entries (episodes : List Episode) :
    (generate_rss_feed episodes).length = episodes.length ∧
    (∀ i : Nat, (generate_rss_feed episodes)[i]? = (episodes[i]?).map feedEntry) ∧
    (∀ e, e ∈ episodes →
      (feedEntry e).title = "Episode " ++ e.timestamp ∧
      (feedEntry e).entryId = e.audio_url ∧
      (feedEntry e).link = e.audio_url ∧
      (feedEntry e).enclosure_url = e.audio_url ∧
      (feedEntry e).enclosure_type = "audio/mpeg" ∧
      (feedEntry e).description = e.podcast_text.take 500 ++ "..." ∧
      (feedEntry e).pubDate = e.created_at) := by
  refine ⟨?_, ?_, ?_⟩
  · rw [generate_rss_feed_eq_map, List.length_map]
  · intro i
    rw [generate_rss_feed_eq_map, List.getElem?_map]
  · intro e he
    exact ⟨rfl, rfl, rfl, rfl, rfl, rfl, rfl⟩

/-- Witness for C8: the single-record document on a concrete episode. -/
theorem generate_rss_feed_entries_witness :
    (generate_rss_feed [epShort]).length = 1 ∧
    (generate_rss_feed [epShort])[0]? = some (feedEntry epShort) ∧
    (feedEntry epShort).description = epShort.podcast_text.take 500 ++ "..." := by
  refine ⟨(generate_rss_feed_entries [epShort]).1, ?_,
    ((generate_rss_feed_entries [epShort]).2.2 epShort
      (List.mem_singleton.mpr rfl)).2.2.2.2.2.1⟩
  have h := (generate_rss_feed_entries [epShort]).2.1 0
  simpa using h

/-- Claim C9: the composed script is exactly one opening block naming the
show title and run timestamp, followed by one exchange block per input topic
in input order, followed by one fixed closing sentence. -/
theorem composeScript_structure (conv : TopicItem → String) (title ts : String)
    (topics : List TopicItem) :
    composeScript conv title ts topics =
      openingBlock title ts ++
        String.join (topics.map (fun t => conv t ++ "\n\n")) ++
        closingBlock title :=
  composeScript_eq conv title ts topics

/-- Claim C10: when an unexpected exception makes the run return the degraded
record, the episode ledger is returned unchanged — the degraded record is
never appended. -/
theorem degraded_run_preserves_ledger (cfg : Config) (env : RunEnv)
    (ledger : List Episode) (msg : String)
    (h : runBody cfg env ledger = Except.error msg) :
    generate_podcast cfg env ledger = (degradedRecord env.isoNowError, ledger) := by
  simp [generate_podcast, h]

/-- Witness for C10: a failing run on a one-record ledger leaves that ledger
intact. -/
theorem degraded_run_preserves_ledger_witness :
    generate_podcast cfgBare envBoom [epShort] =
      (degradedRecord "2026-01-01T08:00:03", [epShort]) :=
  degraded_run_preserves_ledger cfgBare envBoom [epShort] "boom" rfl

end PodcastAI
